import Mathlib

/-!
Verification development for the task-lifecycle engine of the repository:
the plan/step execution state machine (`iterative_reasoning_engine.py`),
the human-approval workflow (`approval_system.py`), the file-watch event
ingestion (`file_watcher_service.py`, `inbox_watcher.py`) and the recovery
strategy selector (`agent_loop.py`).

Modelling conventions:
* machine wall-clock instants and float-valued durations/confidences are
  modelled as exact rationals (the float literals 0.7, 0.8, 2.0 become the
  corresponding rationals);
* Python in-place list mutation is modelled by explicit list updates
  (`List.set`) threaded through the functions;
* action execution (`_execute_action`, overridable in subclasses, and the
  exception it may raise) is a parameter `exec_action : String → Except
  String String`;
* directories are association lists of (file name, file content);
* timestamp-valued metadata fields that no control flow reads
  (`created_at`, `started_at`, `completed_at`, `updated_at`) and the
  human-readable markdown rendering are omitted from the state.
-/

/-- Status enum `StepStatus` from `iterative_reasoning_engine.py`. -/
inductive StepStatus where
  | PENDING
  | IN_PROGRESS
  | COMPLETED
  | FAILED
  | SKIPPED
  | BLOCKED
  deriving DecidableEq

/-- Status enum `PlanStatus` from `iterative_reasoning_engine.py`. -/
inductive PlanStatus where
  | NOT_STARTED
  | IN_PROGRESS
  | COMPLETED
  | FAILED
  | BLOCKED
  | AWAITING_APPROVAL
  | OBSOLETE
  deriving DecidableEq

/-- Model of the `Step` dataclass (timestamps omitted, `actual_outputs` as an
association list). -/
structure Step where
  id : String
  name : String := ""
  description : String := ""
  actions : List String := []
  expected_outputs : List String := []
  status : StepStatus := StepStatus.PENDING
  dependencies : List String := []
  attempts : Nat := 0
  max_attempts : Nat := 3
  actual_outputs : List (String × String) := []
  notes : String := ""
  is_critical : Bool := true
  risk_level : String := "MEDIUM"
  deriving DecidableEq

/-- Model of the `StepResult` dataclass (error modelled as its message,
`recovery_strategy` omitted: the engine never sets it). -/
structure StepResult where
  status : String
  outputs : List (String × String) := []
  error : Option String := none
  message : String := ""
  retry_strategy : Option String := none
  confidence : ℚ := 1
  is_unexpected : Bool := false
  invalidates_assumptions : Bool := false
  suggests_better_approach : Bool := false
  deriving DecidableEq

/-- Model of the `Plan` dataclass (context bag and timestamps omitted). -/
structure Plan where
  id : String
  objective : String := ""
  success_criteria : List String := []
  steps : List Step
  status : PlanStatus := PlanStatus.NOT_STARTED
  notes : String := ""
  deriving DecidableEq

/-- Model of `IterativeReasoningEngine._are_dependencies_met`: every dependency id
must resolve to a step of the plan whose status is COMPLETED. -/
def are_dependencies_met (step : Step) (steps : List Step) : Bool :=
  step.dependencies.all fun dep_id =>
    match steps.find? (fun s => s.id == dep_id) with
    | none => false
    | some dep_step => dep_step.status == StepStatus.COMPLETED

/-- Model of `IterativeReasoningEngine._get_next_step`, scanning from index `i`:
skips non-PENDING steps and steps with unmet dependencies, marks a PENDING
step whose attempts reached `max_attempts` FAILED in place and skips it,
and returns the first remaining step (as its index) together with the
mutated step list. -/
def get_next_step_go (steps : List Step) (i : Nat) : List Step × Option Nat :=
  match h : steps[i]? with
  | none => (steps, none)
  | some s =>
    if s.status != StepStatus.PENDING then
      get_next_step_go steps (i + 1)
    else if !(are_dependencies_met s steps) then
      get_next_step_go steps (i + 1)
    else if s.max_attempts ≤ s.attempts then
      get_next_step_go (steps.set i { s with status := StepStatus.FAILED }) (i + 1)
    else
      (steps, some i)
termination_by steps.length - i
decreasing_by
  all_goals
    have hi : i < steps.length := (List.getElem?_eq_some.mp h).1
    simp [List.length_set]
    omega

/-- The full scan of `_get_next_step` starts the whole step list from the front. -/
def get_next_step (steps : List Step) : List Step × Option Nat :=
  get_next_step_go steps 0

/-- Model of `IterativeReasoningEngine._validate_step_outputs`: non-empty output
map. -/
def validate_step_outputs (outputs : List (String × String)) : Bool :=
  outputs.length > 0

/-- The `for action in step.actions` loop of `_execute_step`: run the
actions in order, aborting at the first raised exception. -/
def execute_actions (exec_action : String → Except String String) :
    List String → Except String (List (String × String))
  | [] => Except.ok []
  | a :: rest =>
    match exec_action a with
    | Except.error e => Except.error e
    | Except.ok v =>
      match execute_actions exec_action rest with
      | Except.error e => Except.error e
      | Except.ok outs => Except.ok ((a, v) :: outs)

/-- Model of `IterativeReasoningEngine._handle_step_failure`: reset to PENDING with
a RETRY result while attempts remain, else mark FAILED. -/
def handle_step_failure (step : Step) (error : String) : Step × StepResult :=
  if step.attempts < step.max_attempts then
    ({ step with
        status := StepStatus.PENDING,
        notes := step.notes ++ "\nAttempt " ++ toString step.attempts ++ " failed: "
          ++ error ++ ". Will retry..." },
     { status := "RETRY", error := some error, retry_strategy := some "IMMEDIATE",
       message := "Step failed, will retry (" ++ toString step.attempts ++ "/"
         ++ toString step.max_attempts ++ ")" })
  else
    ({ step with
        status := StepStatus.FAILED,
        notes := step.notes ++ "\nStep failed after " ++ toString step.attempts
          ++ " attempts: " ++ error },
     { status := "FAILED", error := some error,
       message := "Step failed after " ++ toString step.attempts ++ " attempts" })

/-- Model of `IterativeReasoningEngine._execute_step` on the step at index `k`:
mark IN_PROGRESS, increment attempts, run the actions, validate, and on
success mark COMPLETED, otherwise go through `handle_step_failure`. -/
def execute_step (exec_action : String → Except String String)
    (steps : List Step) (k : Nat) : List Step × StepResult :=
  match steps[k]? with
  | none => (steps, { status := "FAILED", message := "no such step" })
  | some step0 =>
    let step1 := { step0 with status := StepStatus.IN_PROGRESS, attempts := step0.attempts + 1 }
    match execute_actions exec_action step1.actions with
    | Except.ok outputs =>
      if validate_step_outputs outputs then
        let stepC := { step1 with status := StepStatus.COMPLETED, actual_outputs := outputs }
        (steps.set k stepC,
         { status := "SUCCESS", outputs := outputs, message := "Step completed successfully" })
      else
        let fr := handle_step_failure step1 "Output validation failed"
        (steps.set k fr.1, fr.2)
    | Except.error e =>
      let fr := handle_step_failure step1 e
      (steps.set k fr.1, fr.2)

/-- Model of `IterativeReasoningEngine._has_blocked_steps`. -/
def has_blocked_steps (steps : List Step) : Bool :=
  steps.any fun s => s.status == StepStatus.BLOCKED

/-- Model of `IterativeReasoningEngine._should_replan`: at least two FAILED steps,
or the result suggests a better approach. -/
def should_replan (steps : List Step) (result : StepResult) : Bool :=
  decide (2 ≤ (steps.filter fun s => s.status == StepStatus.FAILED).length)
    || result.suggests_better_approach

/-- Model of `IterativeReasoningEngine._replan` (simplified in the source to
marking the plan for human review). -/
def replan (plan : Plan) : Plan :=
  { plan with status := PlanStatus.AWAITING_APPROVAL }

/-- Model of `IterativeReasoningEngine._requires_human_intervention`: the source
computes `result.status == 'FAILED' and result.confidence < 0.7`; the
float threshold 0.7 is the exact rational `mkRat 7 10`. -/
def requires_human_intervention (plan : Plan) (result : StepResult) : Bool :=
  result.status == "FAILED" && decide (result.confidence < mkRat 7 10)

/-- Model of `IterativeReasoningEngine._request_human_intervention`. -/
def request_human_intervention (plan : Plan) : Plan :=
  { plan with status := PlanStatus.AWAITING_APPROVAL }

/-- Model of `IterativeReasoningEngine._handle_blocked_plan`. -/
def handle_blocked_plan (plan : Plan) : Plan :=
  { plan with status := PlanStatus.BLOCKED }

/-- The COMPLETED-step count computed by `_finalize_plan`. -/
def completed_count (steps : List Step) : Nat :=
  (steps.filter fun s => s.status == StepStatus.COMPLETED).length

/-- Model of `IterativeReasoningEngine._finalize_plan` (status computation; the
human-readable completion summary is omitted). -/
def finalize_plan (plan : Plan) : Plan :=
  let completed := completed_count plan.steps
  let total := plan.steps.length
  if completed = total then
    { plan with status := PlanStatus.COMPLETED }
  else if (total : ℚ) * mkRat 8 10 ≤ (completed : ℚ) then
    { plan with status := PlanStatus.COMPLETED }
  else
    { plan with status := PlanStatus.FAILED }

/-- One iteration of the `while` loop of
`IterativeReasoningEngine.execute_plan_iteratively`: select the next step,
execute it, check replanning, check human intervention.  The returned
Bool is true when the loop breaks (no executable step, or intervention
requested). -/
def execution_cycle (exec_action : String → Except String String) (plan : Plan) :
    Plan × Bool :=
  let sel := get_next_step plan.steps
  match sel.2 with
  | none =>
    let plan1 := { plan with steps := sel.1 }
    (if has_blocked_steps sel.1 then handle_blocked_plan plan1 else plan1, true)
  | some k =>
    let ex := execute_step exec_action sel.1 k
    let plan2 := { plan with steps := ex.1 }
    let plan3 := if should_replan ex.1 ex.2 then replan plan2 else plan2
    if requires_human_intervention plan3 ex.2 then
      (request_human_intervention plan3, true)
    else
      (plan3, false)

/-- The intervention predicate as the specification sentence states it
(§4.1 item 6): a FAILED critical-step result, or result confidence below
0.7, or the next eligible step carrying HIGH risk.  Stated from the
spec's words, to be compared with `requires_human_intervention`. -/
def spec_intervention_required (result : StepResult) (last_step_critical : Bool)
    (next_step_risk : Option String) : Bool :=
  (result.status == "FAILED" && last_step_critical)
    || decide (result.confidence < mkRat 7 10)
    || next_step_risk == some "HIGH"

/-! ## Approval system (`approval_system.py`) -/

/-- Status enum `ApprovalStatus`. -/
inductive ApprovalStatus where
  | PENDING
  | APPROVED
  | REJECTED
  | EXPIRED
  deriving DecidableEq

/-- What one iteration of `ApprovalManager.monitor_approval` observes
about the persisted approval document: the file is gone, reading it
raised, or it parsed to a status. -/
inductive PollObs where
  | missing
  | read_err
  | doc (status : ApprovalStatus)
  deriving DecidableEq

/-- The value `monitor_approval` returns (the decision payload is
irrelevant to the gating logic and omitted). -/
inductive MonitorResult where
  | expired
  | approved
  | rejected
  deriving DecidableEq

/-- The configured default of `config.get("default_timeout_seconds", 3600)`. -/
def default_timeout_seconds : Nat := 3600

/-- Model of `self.approval_rules["timeout_by_priority"].get(priority, self.default_timeout)`
with the default rules low=7200, medium=3600, high=1800, critical=900. -/
def timeout_by_priority (priority : String) (default_timeout : Nat) : Nat :=
  if priority == "low" then 7200
  else if priority == "medium" then 3600
  else if priority == "high" then 1800
  else if priority == "critical" then 900
  else default_timeout

/-- The `expires_at` stamped by `create_approval_request`:
`datetime.now() + timedelta(seconds=timeout_seconds)`. -/
def approval_expires_at (created_at : ℚ) (priority : String) (default_timeout : Nat) : ℚ :=
  created_at + (timeout_by_priority priority default_timeout : ℚ)

/-- Model of `ApprovalManager.monitor_approval` over a trace of poll iterations,
each carrying the elapsed wall-clock seconds at its start and the
observation made.  Per the source: first the timeout check
(`elapsed > timeout_seconds` returns EXPIRED), then the existence check
(missing file returns REJECTED), then the parsed status (APPROVED or
REJECTED returns, anything else — PENDING, EXPIRED-in-file, or a read
error — polls again).  `none` means the trace ended with the monitor
still polling. -/
def monitor_approval (timeout_seconds : ℚ) : List (ℚ × PollObs) → Option MonitorResult
  | [] => none
  | (elapsed, obs) :: rest =>
    if timeout_seconds < elapsed then some MonitorResult.expired
    else
      match obs with
      | PollObs.missing => some MonitorResult.rejected
      | PollObs.read_err => monitor_approval timeout_seconds rest
      | PollObs.doc ApprovalStatus.APPROVED => some MonitorResult.approved
      | PollObs.doc ApprovalStatus.REJECTED => some MonitorResult.rejected
      | PollObs.doc _ => monitor_approval timeout_seconds rest

/-- The gate of `integrate_with_executor.execute_with_approval_check`:
whether the wrapped `executor.execute` is invoked.  A sensitive task runs
only on an APPROVED monitor outcome (`none` models a monitor still
polling, during which nothing has executed). -/
def execute_with_approval_check (is_sensitive : Bool)
    (monitor_result : Option MonitorResult) : Bool :=
  if is_sensitive then
    match monitor_result with
    | some MonitorResult.approved => true
    | _ => false
  else true

/-- A directory as an association list of (file name, file content). -/
abbrev FileDir := List (String × String)

/-- Model of `ApprovalManager._archive_approval`: `Path.rename` of
`Needs_Approval/<id>.md` to `Done/<id>-<status>.md`.  POSIX rename
silently replaces an existing target, modelled by filtering the target
name out of the destination directory before inserting. -/
def archive_approval (pending done : FileDir) (approval_id final_status : String) :
    FileDir × FileDir :=
  let source_name := approval_id ++ ".md"
  let dest_name := approval_id ++ "-" ++ final_status ++ ".md"
  match pending.find? (fun f => f.1 == source_name) with
  | some f =>
    (pending.filter (fun g => g.1 != source_name),
     (done.filter (fun g => g.1 != dest_name)) ++ [(dest_name, f.2)])
  | none => (pending, done)

/-- Model of `FileManager.move_file` from `inbox_watcher.py`: if the
destination name exists the file is instead renamed to
`<stem>_<timestamp><suffix>`; the existence check is made once, only for
the original name, and the final `source.rename(destination)` is a POSIX
rename that silently replaces whatever file bears the chosen final name
(modelled, as in `archive_approval`, by filtering that name out before
inserting).  The destination name is passed as its
`Path.stem`/`Path.suffix` decomposition.  Returns the directory and the
name actually used. -/
def move_file (source_content : String) (dest_dir : FileDir)
    (dest_stem dest_suffix : String) (timestamp : String) : FileDir × String :=
  let dest_name := dest_stem ++ dest_suffix
  if dest_dir.any (fun f => f.1 == dest_name) then
    let new_name := dest_stem ++ "_" ++ timestamp ++ dest_suffix
    ((dest_dir.filter (fun g => g.1 != new_name)) ++ [(new_name, source_content)], new_name)
  else
    ((dest_dir.filter (fun g => g.1 != dest_name)) ++ [(dest_name, source_content)], dest_name)

/-- Zero-padded `%03d` formatting of the sequence number. -/
def pad3 (n : Nat) : String :=
  if n < 10 then "00" ++ toString n
  else if n < 100 then "0" ++ toString n
  else toString n

/-- The glob `APR-{timestamp[:8]}-*.md` used by `_generate_approval_id`. -/
def matches_day_glob (date_str : String) (name : String) : Bool :=
  ("APR-" ++ date_str ++ "-").toList.isPrefixOf name.toList
    && (".md").toList.isSuffixOf name.toList

/-- Model of `ApprovalManager._generate_approval_id`: sequence number = number of
matching files currently in the pending directory + 1, where `date_str`
is today's `%Y%m%d`. -/
def generate_approval_id (pending_names : List String) (date_str : String) : String :=
  let existing := pending_names.filter (matches_day_glob date_str)
  let sequence := existing.length + 1
  "APR-" ++ date_str ++ "-" ++ pad3 sequence

/-! ## File watcher (`file_watcher_service.py`) -/

/-- Model of `WatcherConfig` (fields the event handler reads). -/
structure WatcherConfig where
  watch_patterns : List String := ["*.md", "*.txt"]
  ignore_patterns : List String := ["*.tmp", ".*"]
  debounce_seconds : ℚ := 2
  max_queue_size : Nat := 100
  deriving DecidableEq

/-- The mutable state of `InboxEventHandler`: the debounce map
(path ↦ last processed instant) and the consumer queue contents. -/
structure HandlerState where
  processed_files : List (String × ℚ) := []
  event_queue : List String := []
  deriving DecidableEq

/-- Model of `InboxEventHandler._should_process_file`; `Path.match` is the
parameter `match_pat path pattern`. -/
def should_process_file (match_pat : String → String → Bool)
    (cfg : WatcherConfig) (path : String) : Bool :=
  if cfg.ignore_patterns.any (fun pat => match_pat path pat) then false
  else if cfg.watch_patterns.any (fun pat => match_pat path pat) then true
  else false

/-- Model of `InboxEventHandler._is_recently_processed` at wall-clock instant
`now`. -/
def is_recently_processed (cfg : WatcherConfig) (st : HandlerState)
    (now : ℚ) (path : String) : Bool :=
  match st.processed_files.find? (fun kv => kv.1 == path) with
  | some kv => decide (now - kv.2 < cfg.debounce_seconds)
  | none => false

/-- Model of `InboxEventHandler._mark_processed`: record `path ↦ now`, then evict
entries older than one hour. -/
def mark_processed (st : HandlerState) (now : ℚ) (path : String) : HandlerState :=
  let updated := (st.processed_files.filter (fun kv => kv.1 != path)) ++ [(path, now)]
  let cutoff := now - 3600
  { st with processed_files := updated.filter (fun kv => decide (cutoff < kv.2)) }

/-- Model of `InboxEventHandler.on_created`: ignore directories, filter by
patterns, debounce, mark processed, and enqueue unless the bounded queue
is full (in which case the event is dropped). -/
def on_created (match_pat : String → String → Bool) (cfg : WatcherConfig)
    (st : HandlerState) (src_path : String) (is_directory : Bool) (now : ℚ) :
    HandlerState :=
  if is_directory then st
  else if !(should_process_file match_pat cfg src_path) then st
  else if is_recently_processed cfg st now src_path then st
  else
    let st1 := mark_processed st now src_path
    if st1.event_queue.length < cfg.max_queue_size then
      { st1 with event_queue := st1.event_queue ++ [src_path] }
    else st1

/-! ## Recovery strategy selector (`agent_loop.py`) -/

/-- The `RecoveryStrategy` record built by `determine_recovery_strategy`. -/
structure RecoveryStrategy where
  type : String
  reason : String
  action : String
  alternative_step : Option Step := none
  degradation : Option String := none
  deriving DecidableEq

/-- Model of `determine_recovery_strategy(plan, failed_step, error)`:
`assess_failure_impact` and `find_alternative_approach` are external to
the file and passed as function parameters; `error` is unused by the
source body. -/
def determine_recovery_strategy (assess_failure_impact : Plan → Step → String)
    (find_alternative_approach : Plan → Step → Option Step)
    (plan : Plan) (failed_step : Step) (error : String) : RecoveryStrategy :=
  let impact := assess_failure_impact plan failed_step
  if impact == "CRITICAL" then
    { type := "ABORT", reason := "Critical step failed, cannot continue",
      action := "Request human intervention" }
  else if impact == "HIGH" then
    match find_alternative_approach plan failed_step with
    | some alternative =>
      { type := "ALTERNATIVE", reason := "Primary approach failed, trying alternative",
        action := "Execute alternative: " ++ alternative.name,
        alternative_step := some alternative }
    | none =>
      { type := "ABORT", reason := "No alternative approach available",
        action := "Request human intervention" }
  else if impact == "MEDIUM" then
    { type := "SKIP_AND_CONTINUE", reason := "Step failed but not critical",
      action := "Continue with remaining steps",
      degradation := some "Some functionality may be limited" }
  else
    { type := "CONTINUE", reason := "Non-critical step failed",
      action := "Continue with remaining steps" }

/-! ## Auxiliary definitions and concrete instances used by the theorems -/

/-- The projection of a step list that `are_dependencies_met` reads:
ids and COMPLETED-flags, in order. -/
def dep_view (steps : List Step) : List (String × Bool) :=
  steps.map fun s => (s.id, s.status == StepStatus.COMPLETED)

/-- The in-place FAILED marking done by `_get_next_step` on an exhausted
step. -/
def fail_step (s : Step) : Step := { s with status := StepStatus.FAILED }

def c1_step : Step := { id := "step-001", name := "Execute", actions := [], attempts := 2 }

def c1_plan : Plan := { id := "plan-001", objective := "objective", steps := [c1_step] }

def c1_exec : String → Except String String := fun a => Except.ok a

def c2_plan : Plan :=
  { id := "plan-002",
    steps := [{ id := "step-001", status := StepStatus.COMPLETED },
              { id := "step-002", status := StepStatus.FAILED }] }

def c3_step_a : Step := { id := "step-001", attempts := 3 }

def c3_step_b : Step := { id := "step-002" }

def c3_steps : List Step := [c3_step_a, c3_step_b]

def c4_plan : Plan :=
  { id := "plan-004", steps := [{ id := "step-001", actions := ["do_work"], attempts := 1 }] }

def c4_exec : String → Except String String := fun a => Except.ok a

def c6_day : String := "20260213"

def c6_id1 : String := generate_approval_id [] c6_day

def c6_pending1 : FileDir := [(c6_id1 ++ ".md", "first request")]

def c6_archived : FileDir × FileDir := archive_approval c6_pending1 [] c6_id1 "EXECUTED"

def c6_id2 : String := generate_approval_id (c6_archived.1.map Prod.fst) c6_day

def c7_pending : FileDir := [("APR-20260213-001.md", "second request")]

def c7_done : FileDir := [("APR-20260213-001-EXECUTED.md", "first request")]

def c7_result : FileDir × FileDir :=
  archive_approval c7_pending c7_done "APR-20260213-001" "EXECUTED"

def c8_cfg : WatcherConfig := {}

def c8_match : String → String → Bool := fun _ pat => pat == "*.md"

def c8_st : HandlerState := {}

def c9_pre : List (ℚ × PollObs) := [((30 : ℚ), PollObs.doc ApprovalStatus.PENDING)]

def c10_assess : Plan → Step → String := fun _ _ => "CRITICAL"

def c10_find : Plan → Step → Option Step := fun _ _ => none

def c10_plan : Plan := { id := "plan-010", steps := [] }

def c10_step : Step := { id := "step-001" }

/-! ## Theorems -/

theorem dep_check_congr (dep_id : String) (l₁ l₂ : List Step)
    (h : dep_view l₁ = dep_view l₂) :
    (match l₁.find? (fun s => s.id == dep_id) with
     | none => false
     | some dep_step => dep_step.status == StepStatus.COMPLETED)
    = (match l₂.find? (fun s => s.id == dep_id) with
       | none => false
       | some dep_step => dep_step.status == StepStatus.COMPLETED) := by
  induction l₁ generalizing l₂ with
  | nil =>
    cases l₂ with
    | nil => rfl
    | cons b t => simp [dep_view] at h
  | cons a t ih =>
    cases l₂ with
    | nil => simp [dep_view] at h
    | cons b t₂ =>
      simp only [dep_view, List.map_cons, List.cons.injEq, Prod.mk.injEq] at h
      obtain ⟨⟨hid, hst⟩, htl⟩ := h
      rw [List.find?_cons, List.find?_cons, hid]
      cases hb : (b.id == dep_id) with
      | true => simpa using hst
      | false => exact ih t₂ htl

theorem are_dependencies_met_congr (t : Step) (l₁ l₂ : List Step)
    (h : dep_view l₁ = dep_view l₂) :
    are_dependencies_met t l₁ = are_dependencies_met t l₂ := by
  unfold are_dependencies_met
  congr 1
  funext dep_id
  exact dep_check_congr dep_id l₁ l₂ h

theorem dep_view_set_failed (steps : List Step) (i : Nat) (s : Step)
    (hi : steps[i]? = some s) (hs : s.status = StepStatus.PENDING) :
    dep_view (steps.set i { s with status := StepStatus.FAILED }) = dep_view steps := by
  induction steps generalizing i with
  | nil => simp at hi
  | cons a t ih =>
    cases i with
    | zero =>
      simp only [List.getElem?_cons_zero, Option.some.injEq] at hi
      subst hi
      simp [dep_view, List.set, hs]
    | succ n =>
      simp only [List.getElem?_cons_succ] at hi
      simp [dep_view, List.set] at ih ⊢
      exact ih n hi

theorem go_eq_none (steps : List Step) (i : Nat) (h : steps[i]? = none) :
    get_next_step_go steps i = (steps, none) := by
  conv_lhs => rw [get_next_step_go]
  rw [h]

theorem go_eq_skip_status (steps : List Step) (i : Nat) (s : Step)
    (h : steps[i]? = some s) (hc : (s.status != StepStatus.PENDING) = true) :
    get_next_step_go steps i = get_next_step_go steps (i + 1) := by
  conv_lhs => rw [get_next_step_go]
  rw [h]
  simp [hc]

theorem go_eq_skip_deps (steps : List Step) (i : Nat) (s : Step)
    (h : steps[i]? = some s) (hc1 : ¬(s.status != StepStatus.PENDING) = true)
    (hc2 : (!are_dependencies_met s steps) = true) :
    get_next_step_go steps i = get_next_step_go steps (i + 1) := by
  conv_lhs => rw [get_next_step_go]
  rw [h]
  simp [hc1, hc2]

theorem go_eq_mark (steps : List Step) (i : Nat) (s : Step)
    (h : steps[i]? = some s) (hc1 : ¬(s.status != StepStatus.PENDING) = true)
    (hc2 : ¬(!are_dependencies_met s steps) = true) (hc3 : s.max_attempts ≤ s.attempts) :
    get_next_step_go steps i
      = get_next_step_go (steps.set i { s with status := StepStatus.FAILED }) (i + 1) := by
  conv_lhs => rw [get_next_step_go]
  rw [h]
  simp [hc1, hc2, hc3]

theorem go_eq_select (steps : List Step) (i : Nat) (s : Step)
    (h : steps[i]? = some s) (hc1 : ¬(s.status != StepStatus.PENDING) = true)
    (hc2 : ¬(!are_dependencies_met s steps) = true) (hc3 : ¬s.max_attempts ≤ s.attempts) :
    get_next_step_go steps i = (steps, some i) := by
  conv_lhs => rw [get_next_step_go]
  rw [h]
  simp [hc1, hc2, hc3]

theorem get_next_step_go_spec (steps : List Step) (i : Nat) :
    (∀ j : Nat, j < i → (get_next_step_go steps i).1[j]? = steps[j]?)
    ∧ (∀ j : Nat, (get_next_step_go steps i).1[j]? = steps[j]?
        ∨ ∃ t : Step, steps[j]? = some t
            ∧ (get_next_step_go steps i).1[j]? = some (fail_step t)
            ∧ t.status = StepStatus.PENDING
            ∧ are_dependencies_met t steps = true
            ∧ t.max_attempts ≤ t.attempts)
    ∧ (∀ k : Nat, (get_next_step_go steps i).2 = some k →
        i ≤ k
        ∧ (get_next_step_go steps i).1[k]? = steps[k]?
        ∧ (∃ s : Step, steps[k]? = some s ∧ s.status = StepStatus.PENDING
            ∧ are_dependencies_met s steps = true ∧ s.attempts < s.max_attempts)
        ∧ (∀ (j : Nat) (t : Step), i ≤ j → j < k → steps[j]? = some t →
            ¬(t.status = StepStatus.PENDING ∧ are_dependencies_met t steps = true
                ∧ t.attempts < t.max_attempts)
            ∧ (t.status = StepStatus.PENDING → are_dependencies_met t steps = true →
                t.max_attempts ≤ t.attempts →
                (get_next_step_go steps i).1[j]? = some (fail_step t)))) := by
  induction steps, i using get_next_step_go.induct with
  | case1 steps i h =>
    rw [go_eq_none steps i h]
    refine ⟨fun j hj => rfl, fun j => Or.inl rfl, fun k hk => by simp at hk⟩
  | case2 steps i s h hc ih =>
    rw [go_eq_skip_status steps i s h hc]
    obtain ⟨ih1, ih2, ih3⟩ := ih
    refine ⟨fun j hj => ih1 j (by omega), ih2, ?_⟩
    intro k hk
    obtain ⟨hik, hkk, hex, hscan⟩ := ih3 k hk
    refine ⟨by omega, hkk, hex, ?_⟩
    intro j t hij hjk hjt
    by_cases hji : j = i
    · subst hji
      rw [h] at hjt
      injection hjt with hjt
      subst hjt
      constructor
      · rintro ⟨hp, -, -⟩
        rw [hp] at hc
        simp at hc
      · intro hp _ _
        rw [hp] at hc
        simp at hc
    · exact hscan j t (by omega) hjk hjt
  | case3 steps i s h hc1 hc2 ih =>
    have hdm : are_dependencies_met s steps = false := by simpa using hc2
    rw [go_eq_skip_deps steps i s h hc1 hc2]
    obtain ⟨ih1, ih2, ih3⟩ := ih
    refine ⟨fun j hj => ih1 j (by omega), ih2, ?_⟩
    intro k hk
    obtain ⟨hik, hkk, hex, hscan⟩ := ih3 k hk
    refine ⟨by omega, hkk, hex, ?_⟩
    intro j t hij hjk hjt
    by_cases hji : j = i
    · subst hji
      rw [h] at hjt
      injection hjt with hjt
      subst hjt
      constructor
      · rintro ⟨-, hd, -⟩
        rw [hdm] at hd
        exact Bool.false_ne_true hd
      · intro _ hd _
        rw [hdm] at hd
        exact absurd hd Bool.false_ne_true
    · exact hscan j t (by omega) hjk hjt
  | case4 steps i s h hc1 hc2 hc3 ih =>
    have hp : s.status = StepStatus.PENDING := by simpa using hc1
    have hdm : are_dependencies_met s steps = true := by simpa using hc2
    have hi : i < steps.length := (List.getElem?_eq_some.mp h).1
    have hset : ∀ j, j ≠ i →
        (steps.set i { s with status := StepStatus.FAILED })[j]? = steps[j]? :=
      fun j hj => List.getElem?_set_ne (Ne.symm hj)
    have hseti : (steps.set i { s with status := StepStatus.FAILED })[i]?
        = some (fail_step s) :=
      List.getElem?_set_self hi
    have hdv : dep_view (steps.set i { s with status := StepStatus.FAILED })
        = dep_view steps :=
      dep_view_set_failed steps i s h hp
    have hdmc : ∀ t, are_dependencies_met t (steps.set i { s with status := StepStatus.FAILED })
        = are_dependencies_met t steps :=
      fun t => are_dependencies_met_congr t _ _ hdv
    rw [go_eq_mark steps i s h hc1 hc2 hc3]
    obtain ⟨ih1, ih2, ih3⟩ := ih
    refine ⟨?_, ?_, ?_⟩
    · intro j hj
      rw [ih1 j (by omega), hset j (by omega)]
    · intro j
      by_cases hji : j = i
      · subst hji
        right
        exact ⟨s, h, by rw [ih1 j (by omega)]; exact hseti, hp, hdm, hc3⟩
      · rcases ih2 j with hu | ⟨t, ht, hout, htp, htd, hta⟩
        · left
          rw [hu, hset j hji]
        · right
          refine ⟨t, ?_, hout, htp, ?_, hta⟩
          · rw [← hset j hji]
            exact ht
          · rw [← hdmc t]
            exact htd
    · intro k hk
      obtain ⟨hik, hkk, ⟨s₂, hs₂, hs₂p, hs₂d, hs₂a⟩, hscan⟩ := ih3 k hk
      refine ⟨by omega, ?_, ?_, ?_⟩
      · rw [hkk, hset k (by omega)]
      · refine ⟨s₂, ?_, hs₂p, ?_, hs₂a⟩
        · rw [← hset k (by omega)]
          exact hs₂
        · rw [← hdmc s₂]
          exact hs₂d
      · intro j t hij hjk hjt
        by_cases hji : j = i
        · subst hji
          rw [h] at hjt
          injection hjt with hjt
          subst hjt
          refine ⟨?_, ?_⟩
          · rintro ⟨-, -, hlt⟩
            omega
          · intro _ _ _
            rw [ih1 j (by omega)]
            exact hseti
        · have hjt₂ : (steps.set i { s with status := StepStatus.FAILED })[j]? = some t := by
            rw [hset j hji]
            exact hjt
          obtain ⟨hne, hmark⟩ := hscan j t (by omega) hjk hjt₂
          refine ⟨?_, ?_⟩
          · rintro ⟨h1, h2, h3⟩
            exact hne ⟨h1, by rw [hdmc t]; exact h2, h3⟩
          · intro h1 h2 h3
            exact hmark h1 (by rw [hdmc t]; exact h2) h3
  | case5 steps i s h hc1 hc2 hc3 =>
    have hp : s.status = StepStatus.PENDING := by simpa using hc1
    have hdm : are_dependencies_met s steps = true := by simpa using hc2
    rw [go_eq_select steps i s h hc1 hc2 hc3]
    refine ⟨fun j hj => rfl, fun j => Or.inl rfl, ?_⟩
    intro k hk
    simp only [Option.some.injEq] at hk
    subst hk
    refine ⟨le_refl i, rfl, ⟨s, h, hp, hdm, by omega⟩, ?_⟩
    intro j t hij hjk hjt
    exact absurd hjk (by omega)

/-- C3: next-step selection returns the lowest-ordinal PENDING step whose
dependencies are all COMPLETED and whose attempt counter is below its
bound; every PENDING step with met dependencies that the scan passes over
with its attempt counter at the bound is marked FAILED in the returned
list and is not the selected step; and the selected step never has an
exhausted counter or a non-COMPLETED dependency. -/
theorem C3_next_step_selection (steps : List Step) (k : Nat)
    (hsel : (get_next_step steps).2 = some k) :
    (∃ s : Step, steps[k]? = some s ∧ s.status = StepStatus.PENDING
        ∧ are_dependencies_met s steps = true ∧ s.attempts < s.max_attempts
        ∧ (get_next_step steps).1[k]? = some s)
    ∧ (∀ (j : Nat) (t : Step), j < k → steps[j]? = some t →
        ¬(t.status = StepStatus.PENDING ∧ are_dependencies_met t steps = true
            ∧ t.attempts < t.max_attempts))
    ∧ (∀ (j : Nat) (t : Step), j < k → steps[j]? = some t →
        t.status = StepStatus.PENDING → are_dependencies_met t steps = true →
        t.max_attempts ≤ t.attempts →
        (get_next_step steps).1[j]? = some { t with status := StepStatus.FAILED }) := by
  simp only [get_next_step] at hsel ⊢
  obtain ⟨-, -, h3⟩ := get_next_step_go_spec steps 0
  obtain ⟨-, hkk, ⟨s, hs, hsp, hsd, hsa⟩, hscan⟩ := h3 k hsel
  refine ⟨⟨s, hs, hsp, hsd, hsa, by rw [hkk]; exact hs⟩, ?_, ?_⟩
  · intro j t hjk hjt
    exact (hscan j t (Nat.zero_le j) hjk hjt).1
  · intro j t hjk hjt h1 h2 h3x
    exact (hscan j t (Nat.zero_le j) hjk hjt).2 h1 h2 h3x

theorem get_next_step_preserves_counters (steps : List Step) (j : Nat) (t : Step)
    (ht : (get_next_step steps).1[j]? = some t) :
    ∃ u : Step, steps[j]? = some u ∧ t.attempts = u.attempts
      ∧ t.max_attempts = u.max_attempts := by
  simp only [get_next_step] at ht
  obtain ⟨-, h2, -⟩ := get_next_step_go_spec steps 0
  rcases h2 j with hu | ⟨u, hu, hout, -, -, -⟩
  · exact ⟨t, by rw [← hu]; exact ht, rfl, rfl⟩
  · rw [ht] at hout
    injection hout with hout
    subst hout
    exact ⟨u, hu, rfl, rfl⟩

theorem get_next_step_selected (steps : List Step) (k : Nat)
    (hsel : (get_next_step steps).2 = some k) :
    ∃ s : Step, (get_next_step steps).1[k]? = some s
      ∧ s.attempts < s.max_attempts := by
  simp only [get_next_step] at hsel ⊢
  obtain ⟨-, -, h3⟩ := get_next_step_go_spec steps 0
  obtain ⟨-, hkk, ⟨s, hs, -, -, hsa⟩, -⟩ := h3 k hsel
  exact ⟨s, by rw [hkk]; exact hs, hsa⟩

theorem handle_step_failure_counters (st : Step) (e : String) :
    (handle_step_failure st e).1.attempts = st.attempts
      ∧ (handle_step_failure st e).1.max_attempts = st.max_attempts := by
  unfold handle_step_failure
  split <;> exact ⟨rfl, rfl⟩

theorem execute_step_set (exec_action : String → Except String String)
    (steps : List Step) (k : Nat) (s : Step) (hk : steps[k]? = some s) :
    ∃ s₂ : Step, (execute_step exec_action steps k).1 = steps.set k s₂
      ∧ s₂.attempts = s.attempts + 1 ∧ s₂.max_attempts = s.max_attempts := by
  unfold execute_step
  rw [hk]
  dsimp only
  rcases hEA : execute_actions exec_action s.actions with e | outs
  · dsimp only
    refine ⟨_, rfl, ?_, ?_⟩
    · exact (handle_step_failure_counters _ _).1
    · exact (handle_step_failure_counters _ _).2
  · dsimp only
    by_cases hv : validate_step_outputs outs = true
    · rw [if_pos hv]
      exact ⟨_, rfl, rfl, rfl⟩
    · rw [if_neg hv]
      refine ⟨_, rfl, ?_, ?_⟩
      · exact (handle_step_failure_counters _ _).1
      · exact (handle_step_failure_counters _ _).2

theorem getElem?_set_cases (l : List Step) (k j : Nat) (v : Step) :
    (l.set k v)[j]? = if k = j ∧ k < l.length then some v else l[j]? := by
  by_cases h : k = j
  · subst h
    by_cases hk : k < l.length
    · simp [List.getElem?_set_self hk, hk]
    · have hno : l.set k v = l := List.set_eq_of_length_le (by omega)
      simp [hk, hno]
  · simp [List.getElem?_set_ne h, h]

theorem execution_cycle_steps (exec_action : String → Except String String) (plan : Plan) :
    ((get_next_step plan.steps).2 = none
        ∧ (execution_cycle exec_action plan).1.steps = (get_next_step plan.steps).1)
    ∨ ∃ k : Nat, (get_next_step plan.steps).2 = some k
        ∧ (execution_cycle exec_action plan).1.steps
            = (execute_step exec_action (get_next_step plan.steps).1 k).1 := by
  unfold execution_cycle
  dsimp only
  rcases hsel : (get_next_step plan.steps).2 with _ | k
  · left
    refine ⟨rfl, ?_⟩
    dsimp only
    split <;> rfl
  · right
    refine ⟨k, rfl, ?_⟩
    dsimp only
    split <;> split <;> rfl

/-- C4: for every step of every plan, `attempts ≤ max_attempts` holds
after an execution cycle (selection, execution including the PENDING
retry reset, and finalization), given that it held before. -/
theorem C4_attempts_invariant (exec_action : String → Except String String) (plan : Plan)
    (hinv : ∀ s ∈ plan.steps, s.attempts ≤ s.max_attempts) :
    ∀ s ∈ (finalize_plan (execution_cycle exec_action plan).1).steps,
      s.attempts ≤ s.max_attempts := by
  have hfin : ∀ q : Plan, (finalize_plan q).steps = q.steps := by
    intro q
    unfold finalize_plan
    dsimp only
    split_ifs <;> rfl
  rw [hfin]
  have hinvq : ∀ (j : Nat) (t : Step), plan.steps[j]? = some t →
      t.attempts ≤ t.max_attempts := by
    intro j t hj
    exact hinv t (List.mem_iff_getElem?.mpr ⟨j, hj⟩)
  have hinv1 : ∀ (j : Nat) (t : Step), (get_next_step plan.steps).1[j]? = some t →
      t.attempts ≤ t.max_attempts := by
    intro j t hj
    obtain ⟨u, hu, ha, hm⟩ := get_next_step_preserves_counters plan.steps j t hj
    rw [ha, hm]
    exact hinvq j u hu
  intro s hs
  rcases execution_cycle_steps exec_action plan with ⟨-, hsteps⟩ | ⟨k, hsel, hsteps⟩
  · rw [hsteps] at hs
    obtain ⟨j, hj⟩ := List.mem_iff_getElem?.mp hs
    exact hinv1 j s hj
  · obtain ⟨u, hu, hua⟩ := get_next_step_selected plan.steps k hsel
    obtain ⟨s₂, hset, ha2, hm2⟩ := execute_step_set exec_action (get_next_step plan.steps).1 k u hu
    rw [hsteps, hset] at hs
    obtain ⟨j, hj⟩ := List.mem_iff_getElem?.mp hs
    rw [getElem?_set_cases] at hj
    by_cases hcase : k = j ∧ k < (get_next_step plan.steps).1.length
    · rw [if_pos hcase] at hj
      injection hj with hj
      rw [← hj, ha2, hm2]
      omega
    · rw [if_neg hcase] at hj
      exact hinv1 j s hj

/-- C2: with at least one step, finalization sets COMPLETED exactly when
the completed-step ratio is at least 0.8 (and FAILED otherwise); in
particular all-steps-COMPLETED ends COMPLETED. -/
theorem C2_finalize_threshold (plan : Plan) (h : plan.steps ≠ []) :
    ((finalize_plan plan).status = PlanStatus.COMPLETED
        ↔ mkRat 8 10 ≤ (completed_count plan.steps : ℚ) / (plan.steps.length : ℚ))
    ∧ ((finalize_plan plan).status = PlanStatus.COMPLETED
        ∨ (finalize_plan plan).status = PlanStatus.FAILED)
    ∧ (completed_count plan.steps = plan.steps.length →
        (finalize_plan plan).status = PlanStatus.COMPLETED) := by
  have htot : 0 < plan.steps.length := List.length_pos.mpr h
  have htq : (0 : ℚ) < (plan.steps.length : ℚ) := by exact_mod_cast htot
  have hq : (mkRat 8 10 ≤ (completed_count plan.steps : ℚ) / (plan.steps.length : ℚ))
      ↔ ((plan.steps.length : ℚ) * mkRat 8 10 ≤ (completed_count plan.steps : ℚ)) := by
    rw [le_div_iff₀ htq]
    constructor <;> intro hx <;> linarith
  unfold finalize_plan
  dsimp only
  split_ifs with h1 h2
  · refine ⟨?_, Or.inl rfl, fun _ => rfl⟩
    simp only [true_iff, show ({ plan with status := PlanStatus.COMPLETED } : Plan).status
      = PlanStatus.COMPLETED from rfl]
    rw [h1, div_self (ne_of_gt htq), Rat.mkRat_eq_div]
    norm_num
  · refine ⟨?_, Or.inl rfl, fun _ => rfl⟩
    simp only [true_iff, show ({ plan with status := PlanStatus.COMPLETED } : Plan).status
      = PlanStatus.COMPLETED from rfl]
    exact hq.mpr h2
  · constructor
    · constructor
      · intro hx
        exact absurd hx (by simp [show ({ plan with status := PlanStatus.FAILED } : Plan).status
          = PlanStatus.FAILED from rfl])
      · intro hx
        exact absurd (hq.mp hx) h2
    · exact ⟨Or.inr rfl, fun hc => absurd hc h1⟩

/-- C1 (amended): when a step was selected, the execution loop halts with
the plan marked AWAITING_APPROVAL exactly when the step's result has
status FAILED **and** confidence below 0.7 (the code conjoins the two
conditions; step criticality and next-step risk are not consulted). -/
theorem C1_intervention_amended (exec_action : String → Except String String) (plan : Plan)
    (k : Nat) (hsel : (get_next_step plan.steps).2 = some k) :
    ((execution_cycle exec_action plan).2 = true
        ↔ ((execute_step exec_action (get_next_step plan.steps).1 k).2.status = "FAILED"
            ∧ (execute_step exec_action (get_next_step plan.steps).1 k).2.confidence < mkRat 7 10))
    ∧ ((execution_cycle exec_action plan).2 = true →
        (execution_cycle exec_action plan).1.status = PlanStatus.AWAITING_APPROVAL) := by
  unfold execution_cycle
  dsimp only
  rw [hsel]
  dsimp only
  simp only [requires_human_intervention]
  by_cases hreq : ((execute_step exec_action (get_next_step plan.steps).1 k).2.status == "FAILED"
      && decide ((execute_step exec_action (get_next_step plan.steps).1 k).2.confidence
        < mkRat 7 10)) = true
  · rw [if_pos hreq]
    simp only [Bool.and_eq_true, beq_iff_eq, decide_eq_true_eq] at hreq
    exact ⟨⟨fun _ => hreq, fun _ => rfl⟩, fun _ => rfl⟩
  · rw [if_neg hreq]
    refine ⟨⟨fun hx => absurd hx (by simp), fun hx => ?_⟩, fun hx => absurd hx (by simp)⟩
    exact absurd (by simp [hx.1, hx.2]) hreq

theorem c1_select : get_next_step c1_plan.steps = (c1_plan.steps, some 0) := by
  unfold get_next_step
  exact go_eq_select c1_plan.steps 0 c1_step (by rfl) (by decide) (by decide) (by decide)

/-- C1 counterexample: the step's FAILED result (on a critical step, the
default) makes the spec's disjunctive condition demand intervention, but
the engine does not halt and the plan is not marked AWAITING_APPROVAL,
because the result's confidence is the default 1.0 and the code requires
FAILED **and** confidence < 0.7. -/
theorem C1_intervention_counterexample :
    spec_intervention_required (execute_step c1_exec c1_plan.steps 0).2
        c1_step.is_critical none = true
    ∧ (execute_step c1_exec c1_plan.steps 0).2.status = "FAILED"
    ∧ (execution_cycle c1_exec c1_plan).2 = false
    ∧ (execution_cycle c1_exec c1_plan).1.status ≠ PlanStatus.AWAITING_APPROVAL := by
  refine ⟨by decide, by decide, ?_, ?_⟩
  · unfold execution_cycle
    dsimp only
    rw [c1_select]
    decide
  · unfold execution_cycle
    dsimp only
    rw [c1_select]
    decide

/-- Witness for C1 (amended) at the concrete one-step plan. -/
theorem C1_intervention_amended_witness :
    (get_next_step c1_plan.steps).2 = some 0
    ∧ (((execution_cycle c1_exec c1_plan).2 = true
        ↔ ((execute_step c1_exec (get_next_step c1_plan.steps).1 0).2.status = "FAILED"
            ∧ (execute_step c1_exec (get_next_step c1_plan.steps).1 0).2.confidence < mkRat 7 10))
      ∧ ((execution_cycle c1_exec c1_plan).2 = true →
        (execution_cycle c1_exec c1_plan).1.status = PlanStatus.AWAITING_APPROVAL)) := by
  have h : (get_next_step c1_plan.steps).2 = some 0 := by rw [c1_select]
  exact ⟨h, C1_intervention_amended c1_exec c1_plan 0 h⟩

/-- Witness for C2: a two-step plan with one COMPLETED step (ratio 0.5). -/
theorem C2_finalize_threshold_witness :
    c2_plan.steps ≠ []
    ∧ (((finalize_plan c2_plan).status = PlanStatus.COMPLETED
        ↔ mkRat 8 10 ≤ (completed_count c2_plan.steps : ℚ) / (c2_plan.steps.length : ℚ))
      ∧ ((finalize_plan c2_plan).status = PlanStatus.COMPLETED
        ∨ (finalize_plan c2_plan).status = PlanStatus.FAILED)
      ∧ (completed_count c2_plan.steps = c2_plan.steps.length →
        (finalize_plan c2_plan).status = PlanStatus.COMPLETED)) := by
  have h : c2_plan.steps ≠ [] := by decide
  exact ⟨h, C2_finalize_threshold c2_plan h⟩

theorem c3_select :
    get_next_step c3_steps
      = (c3_steps.set 0 { c3_step_a with status := StepStatus.FAILED }, some 1) := by
  unfold get_next_step
  rw [go_eq_mark c3_steps 0 c3_step_a (by rfl) (by decide) (by decide) (by decide)]
  exact go_eq_select _ 1 c3_step_b (by decide) (by decide) (by decide) (by decide)

/-- Witness for C3: the exhausted first step is passed over and the second
step is selected. -/
theorem C3_next_step_selection_witness :
    (get_next_step c3_steps).2 = some 1
    ∧ ((∃ s : Step, c3_steps[1]? = some s ∧ s.status = StepStatus.PENDING
        ∧ are_dependencies_met s c3_steps = true ∧ s.attempts < s.max_attempts
        ∧ (get_next_step c3_steps).1[1]? = some s)
      ∧ (∀ (j : Nat) (t : Step), j < 1 → c3_steps[j]? = some t →
          ¬(t.status = StepStatus.PENDING ∧ are_dependencies_met t c3_steps = true
              ∧ t.attempts < t.max_attempts))
      ∧ (∀ (j : Nat) (t : Step), j < 1 → c3_steps[j]? = some t →
          t.status = StepStatus.PENDING → are_dependencies_met t c3_steps = true →
          t.max_attempts ≤ t.attempts →
          (get_next_step c3_steps).1[j]? = some { t with status := StepStatus.FAILED })) := by
  have h : (get_next_step c3_steps).2 = some 1 := by rw [c3_select]
  exact ⟨h, C3_next_step_selection c3_steps 1 h⟩

/-- Witness for C4 at a concrete one-step plan. -/
theorem C4_attempts_invariant_witness :
    (∀ s ∈ c4_plan.steps, s.attempts ≤ s.max_attempts)
    ∧ ∀ s ∈ (finalize_plan (execution_cycle c4_exec c4_plan).1).steps,
        s.attempts ≤ s.max_attempts := by
  have h : ∀ s ∈ c4_plan.steps, s.attempts ≤ s.max_attempts := by decide
  exact ⟨h, C4_attempts_invariant c4_exec c4_plan h⟩

/-- C5 evaluation: a critical-priority request is stamped with expiry
`created + 900`, but the executor integration monitors with the
manager's default timeout (3600 s), so at elapsed 1000 s (> 900 s, no
human edit) the monitor is still polling; only a monitor run with the
900 s timeout would have expired; expiry archives as `<id>-EXPIRED.md`
and an EXPIRED outcome never executes the gated action. -/
theorem C5_critical_timeout_eval :
    timeout_by_priority "critical" default_timeout_seconds = 900
    ∧ approval_expires_at 0 "critical" default_timeout_seconds = 900
    ∧ monitor_approval ((default_timeout_seconds : Nat) : ℚ)
        [((1000 : ℚ), PollObs.doc ApprovalStatus.PENDING)] = none
    ∧ monitor_approval ((timeout_by_priority "critical" default_timeout_seconds : Nat) : ℚ)
        [((1000 : ℚ), PollObs.doc ApprovalStatus.PENDING)] = some MonitorResult.expired
    ∧ (archive_approval [("APR-20260213-001.md", "doc")] [] "APR-20260213-001" "EXPIRED").2
        = [("APR-20260213-001-EXPIRED.md", "doc")]
    ∧ execute_with_approval_check true (some MonitorResult.expired) = false := by
  refine ⟨rfl, ?_, by decide, by decide, by decide, rfl⟩
  have ht : timeout_by_priority "critical" default_timeout_seconds = 900 := by decide
  unfold approval_expires_at
  rw [ht]
  norm_num

/-- C6 evaluation: the first id of the day is APR-<day>-001; archiving it
empties the pending directory, and the next id generated the same day is
again APR-<day>-001 — a collision with an already-returned id. -/
theorem C6_id_reuse_eval :
    c6_id1 = "APR-20260213-001"
    ∧ c6_archived.1 = []
    ∧ c6_id2 = c6_id1 := by decide

/-- C7 counterexample: when the rename target already exists in Done,
`_archive_approval` silently replaces it — the previously archived
content is gone and no timestamp-disambiguated name is created,
contradicting the claim's disambiguation clause for `archive(id, status)`. -/
theorem C7_archive_counterexample :
    c7_result.2 = [("APR-20260213-001-EXECUTED.md", "second request")]
    ∧ (∀ f ∈ c7_result.2, ¬ f.2 = "first request")
    ∧ (∀ f ∈ c7_result.2, f.1 = "APR-20260213-001-EXECUTED.md") := by decide

/-- C7 (amended): `archive_approval` is a move — the source disappears
from the pending directory and exactly one file with the terminal-status
suffix for that id remains in Done, carrying the source's content — but
an existing rename target is overwritten; the timestamp-suffix
disambiguation exists only in the inbox watcher's `move_file`, which
writes the moved content under `<stem>_<timestamp><suffix>` and
preserves every existing file not bearing that timestamped name — in
particular the file under the original destination name — while a file
already bearing the timestamped name is, as with any rename, replaced. -/
theorem C7_archive_move_amended (pending done : FileDir) (approval_id final_status : String)
    (fsrc : String × String)
    (hsrc : pending.find? (fun f => f.1 == approval_id ++ ".md") = some fsrc) :
    (∀ g ∈ (archive_approval pending done approval_id final_status).1,
        ¬ g.1 = approval_id ++ ".md")
    ∧ ((archive_approval pending done approval_id final_status).2.filter
        (fun g => g.1 == approval_id ++ "-" ++ final_status ++ ".md")).length = 1
    ∧ (approval_id ++ "-" ++ final_status ++ ".md", fsrc.2)
        ∈ (archive_approval pending done approval_id final_status).2
    ∧ (∀ (dest_dir : FileDir) (content stem sfx ts : String),
        (dest_dir.any (fun f => f.1 == stem ++ sfx)) = true →
          (∀ g ∈ dest_dir, ¬ g.1 = stem ++ "_" ++ ts ++ sfx →
              g ∈ (move_file content dest_dir stem sfx ts).1)
          ∧ (∀ g ∈ dest_dir, g.1 = stem ++ sfx →
              g ∈ (move_file content dest_dir stem sfx ts).1)
          ∧ (stem ++ "_" ++ ts ++ sfx, content) ∈ (move_file content dest_dir stem sfx ts).1
          ∧ (move_file content dest_dir stem sfx ts).2 = stem ++ "_" ++ ts ++ sfx) := by
  unfold archive_approval
  dsimp only
  rw [hsrc]
  refine ⟨?_, ?_, ?_, ?_⟩
  · intro g hg
    have h1 := (List.mem_filter.mp hg).2
    simpa using h1
  · rw [List.filter_append, List.length_append]
    have h1 : (done.filter
        (fun g => g.1 != approval_id ++ "-" ++ final_status ++ ".md")).filter
        (fun g => g.1 == approval_id ++ "-" ++ final_status ++ ".md") = [] := by
      rw [List.filter_eq_nil_iff]
      intro g hg
      have h2 := (List.mem_filter.mp hg).2
      simpa using h2
    rw [h1]
    simp
  · simp
  · intro dest_dir content stem sfx ts hany
    unfold move_file
    dsimp only
    rw [if_pos hany]
    have hpres : ∀ g ∈ dest_dir, ¬ g.1 = stem ++ "_" ++ ts ++ sfx →
        g ∈ (dest_dir.filter (fun g => g.1 != stem ++ "_" ++ ts ++ sfx))
          ++ [(stem ++ "_" ++ ts ++ sfx, content)] := by
      intro g hg hne
      exact List.mem_append_left _ (List.mem_filter.mpr ⟨hg, by simpa using hne⟩)
    refine ⟨hpres, ?_, by simp, rfl⟩
    intro g hg heq
    refine hpres g hg ?_
    rw [heq]
    intro hcontra
    have hlen := congrArg String.length hcontra
    have hu : ("_" : String).length = 1 := rfl
    simp only [String.length_append] at hlen
    rw [hu] at hlen
    omega

/-- Witness for C7 (amended) on concrete directories. -/
theorem C7_archive_move_amended_witness :
    ([("A.md", "x")].find? (fun f => f.1 == "A" ++ ".md") = some ("A.md", "x"))
    ∧ ((archive_approval [("A.md", "x")] [] "A" "EXECUTED").2.filter
        (fun g => g.1 == "A" ++ "-" ++ "EXECUTED" ++ ".md")).length = 1
    ∧ ("A" ++ "-" ++ "EXECUTED" ++ ".md", "x")
        ∈ (archive_approval [("A.md", "x")] [] "A" "EXECUTED").2
    ∧ ("B.md", "old") ∈ (move_file "new" [("B.md", "old")] "B" ".md" "20260213-120000").1
    ∧ ("B" ++ "_" ++ "20260213-120000" ++ ".md", "new")
        ∈ (move_file "new" [("B.md", "old")] "B" ".md" "20260213-120000").1
    ∧ (move_file "new" [("B.md", "old")] "B" ".md" "20260213-120000").2
        = "B" ++ "_" ++ "20260213-120000" ++ ".md" := by
  have hsrc : [("A.md", "x")].find? (fun f => f.1 == "A" ++ ".md") = some ("A.md", "x") := by
    decide
  obtain ⟨-, h2, h3, h4⟩ :=
    C7_archive_move_amended [("A.md", "x")] [] "A" "EXECUTED" ("A.md", "x") hsrc
  obtain ⟨-, hporig, h5, h6⟩ :=
    h4 [("B.md", "old")] "new" "B" ".md" "20260213-120000" (by decide)
  have hb : ("B.md", "old")
      ∈ (move_file "new" [("B.md", "old")] "B" ".md" "20260213-120000").1 :=
    hporig ("B.md", "old") (by decide) (by decide)
  exact ⟨hsrc, h2, h3, hb, h5, h6⟩

theorem find_mark_processed (st : HandlerState) (t0 : ℚ) (path : String) :
    (mark_processed st t0 path).processed_files.find? (fun kv => kv.1 == path)
      = some (path, t0) := by
  unfold mark_processed
  dsimp only
  rw [List.filter_append, List.find?_append]
  have hpre : ((st.processed_files.filter (fun kv => kv.1 != path)).filter
      (fun kv => decide (t0 - 3600 < kv.2))).find? (fun kv => kv.1 == path) = none := by
    rw [List.find?_eq_none]
    intro kv hkv
    have h1 := (List.mem_filter.mp (List.mem_filter.mp hkv).1).2
    simpa using h1
  rw [hpre]
  have hkeep : t0 - 3600 < t0 := by linarith
  simp [hkeep]

/-- C8: a second creation event for the same path within the debounce
window after an accepted first event changes nothing — in particular no
second event is enqueued. -/
theorem C8_debounce_idempotent (match_pat : String → String → Bool) (cfg : WatcherConfig)
    (st : HandlerState) (path : String) (t0 t1 : ℚ)
    (hproc : should_process_file match_pat cfg path = true)
    (hfresh : is_recently_processed cfg st t0 path = false)
    (hdeb : t1 - t0 < cfg.debounce_seconds) :
    on_created match_pat cfg (on_created match_pat cfg st path false t0) path false t1
      = on_created match_pat cfg st path false t0 := by
  have hq : ∀ b : HandlerState,
      (if b.event_queue.length < cfg.max_queue_size then
        { b with event_queue := b.event_queue ++ [path] }
      else b).processed_files = b.processed_files := by
    intro b
    split <;> rfl
  have hst1 : (on_created match_pat cfg st path false t0).processed_files
      = (mark_processed st t0 path).processed_files := by
    unfold on_created
    simp only [hproc, hfresh, Bool.not_true, Bool.false_eq_true, if_false]
    exact hq _
  have hrec : is_recently_processed cfg (on_created match_pat cfg st path false t0) t1 path
      = true := by
    unfold is_recently_processed
    rw [hst1, find_mark_processed]
    simpa using hdeb
  nth_rewrite 1 [on_created]
  simp [hproc, hrec]

/-- Witness for C8: the scenario of spec §8 — same path redelivered 0.5 s
after the first event under the default 2 s debounce. -/
theorem C8_debounce_idempotent_witness :
    should_process_file c8_match c8_cfg "vault/Inbox/task.md" = true
    ∧ is_recently_processed c8_cfg c8_st 0 "vault/Inbox/task.md" = false
    ∧ mkRat 1 2 - 0 < c8_cfg.debounce_seconds
    ∧ on_created c8_match c8_cfg (on_created c8_match c8_cfg c8_st "vault/Inbox/task.md" false 0)
        "vault/Inbox/task.md" false (mkRat 1 2)
      = on_created c8_match c8_cfg c8_st "vault/Inbox/task.md" false 0 := by
  have h1 : should_process_file c8_match c8_cfg "vault/Inbox/task.md" = true := by decide
  have h2 : is_recently_processed c8_cfg c8_st 0 "vault/Inbox/task.md" = false := by decide
  have h3 : mkRat 1 2 - 0 < c8_cfg.debounce_seconds := by
    show mkRat 1 2 - 0 < 2
    rw [Rat.mkRat_eq_div]
    norm_num
  exact ⟨h1, h2, h3, C8_debounce_idempotent c8_match c8_cfg c8_st "vault/Inbox/task.md" 0
    (mkRat 1 2) h1 h2 h3⟩

/-- C9: if the approval document disappears mid-poll — after any number
of still-pending (or unreadable) polls, all before the timeout — the
monitor returns REJECTED, and the gated sensitive action is not
executed (only APPROVED permits invocation). -/
theorem C9_fail_closed (timeout : ℚ) (pre rest : List (ℚ × PollObs)) (e : ℚ)
    (hpre : ∀ p ∈ pre, ¬ timeout < p.1
        ∧ (p.2 = PollObs.read_err ∨ p.2 = PollObs.doc ApprovalStatus.PENDING
            ∨ p.2 = PollObs.doc ApprovalStatus.EXPIRED))
    (he : ¬ timeout < e) :
    monitor_approval timeout (pre ++ (e, PollObs.missing) :: rest)
      = some MonitorResult.rejected
    ∧ execute_with_approval_check true
        (monitor_approval timeout (pre ++ (e, PollObs.missing) :: rest)) = false := by
  have hmon : monitor_approval timeout (pre ++ (e, PollObs.missing) :: rest)
      = some MonitorResult.rejected := by
    induction pre with
    | nil =>
      simp only [List.nil_append, monitor_approval]
      rw [if_neg he]
    | cons p ps ih =>
      obtain ⟨hp1, hp2⟩ := hpre p (List.mem_cons_self p ps)
      have ih2 := ih fun q hq => hpre q (List.mem_cons_of_mem p hq)
      rcases p with ⟨pe, pobs⟩
      dsimp only at hp1 hp2
      simp only [List.cons_append, monitor_approval]
      rw [if_neg hp1]
      rcases hp2 with h2 | h2 | h2 <;> rw [h2] <;> exact ih2
  exact ⟨hmon, by rw [hmon]; rfl⟩

/-- Witness for C9: one pending poll at 30 s, the file gone at 60 s,
timeout 3600 s. -/
theorem C9_fail_closed_witness :
    (∀ p ∈ c9_pre, ¬ (3600 : ℚ) < p.1
        ∧ (p.2 = PollObs.read_err ∨ p.2 = PollObs.doc ApprovalStatus.PENDING
            ∨ p.2 = PollObs.doc ApprovalStatus.EXPIRED))
    ∧ ¬ (3600 : ℚ) < 60
    ∧ monitor_approval 3600 (c9_pre ++ (60, PollObs.missing) :: [])
        = some MonitorResult.rejected
    ∧ execute_with_approval_check true
        (monitor_approval 3600 (c9_pre ++ (60, PollObs.missing) :: [])) = false := by
  have h1 : ∀ p ∈ c9_pre, ¬ (3600 : ℚ) < p.1
      ∧ (p.2 = PollObs.read_err ∨ p.2 = PollObs.doc ApprovalStatus.PENDING
          ∨ p.2 = PollObs.doc ApprovalStatus.EXPIRED) := by decide
  have h2 : ¬ (3600 : ℚ) < 60 := by decide
  obtain ⟨h3, h4⟩ := C9_fail_closed 3600 c9_pre [] 60 h1 h2
  exact ⟨h1, h2, h3, h4⟩

/-- C10: the recovery selector is a total function of the assessed
impact (and alternative availability): CRITICAL maps to ABORT with a
human-intervention recommendation, HIGH to ALTERNATIVE referencing the
substitute step when one is discoverable and ABORT otherwise, MEDIUM to
SKIP_AND_CONTINUE with a degradation note, and any other impact (LOW) to
CONTINUE; the result's tag is always exactly one of the four. -/
theorem C10_recovery_selector (assess_failure_impact : Plan → Step → String)
    (find_alternative_approach : Plan → Step → Option Step)
    (plan : Plan) (failed_step : Step) (error : String) :
    (assess_failure_impact plan failed_step = "CRITICAL" →
        (determine_recovery_strategy assess_failure_impact find_alternative_approach
          plan failed_step error).type = "ABORT"
        ∧ (determine_recovery_strategy assess_failure_impact find_alternative_approach
          plan failed_step error).action = "Request human intervention")
    ∧ (assess_failure_impact plan failed_step = "HIGH" →
        (∀ alt : Step, find_alternative_approach plan failed_step = some alt →
            (determine_recovery_strategy assess_failure_impact find_alternative_approach
              plan failed_step error).type = "ALTERNATIVE"
            ∧ (determine_recovery_strategy assess_failure_impact find_alternative_approach
              plan failed_step error).alternative_step = some alt)
        ∧ (find_alternative_approach plan failed_step = none →
            (determine_recovery_strategy assess_failure_impact find_alternative_approach
              plan failed_step error).type = "ABORT"
            ∧ (determine_recovery_strategy assess_failure_impact find_alternative_approach
              plan failed_step error).action = "Request human intervention"))
    ∧ (assess_failure_impact plan failed_step = "MEDIUM" →
        (determine_recovery_strategy assess_failure_impact find_alternative_approach
          plan failed_step error).type = "SKIP_AND_CONTINUE"
        ∧ (determine_recovery_strategy assess_failure_impact find_alternative_approach
          plan failed_step error).degradation = some "Some functionality may be limited")
    ∧ (¬ assess_failure_impact plan failed_step = "CRITICAL" →
        ¬ assess_failure_impact plan failed_step = "HIGH" →
        ¬ assess_failure_impact plan failed_step = "MEDIUM" →
        (determine_recovery_strategy assess_failure_impact find_alternative_approach
          plan failed_step error).type = "CONTINUE")
    ∧ ((determine_recovery_strategy assess_failure_impact find_alternative_approach
          plan failed_step error).type = "ABORT"
      ∨ (determine_recovery_strategy assess_failure_impact find_alternative_approach
          plan failed_step error).type = "ALTERNATIVE"
      ∨ (determine_recovery_strategy assess_failure_impact find_alternative_approach
          plan failed_step error).type = "SKIP_AND_CONTINUE"
      ∨ (determine_recovery_strategy assess_failure_impact find_alternative_approach
          plan failed_step error).type = "CONTINUE") := by
  refine ⟨?_, ?_, ?_, ?_, ?_⟩
  · intro h
    constructor <;> simp [determine_recovery_strategy, h]
  · intro h
    constructor
    · intro alt halt
      constructor <;> simp [determine_recovery_strategy, h, halt]
    · intro hnone
      constructor <;> simp [determine_recovery_strategy, h, hnone]
  · intro h
    constructor <;> simp [determine_recovery_strategy, h]
  · intro h1 h2 h3
    simp [determine_recovery_strategy, h1, h2, h3]
  · unfold determine_recovery_strategy
    dsimp only
    split_ifs
    · exact Or.inl rfl
    · rcases find_alternative_approach plan failed_step with _ | alt
      · exact Or.inl rfl
      · exact Or.inr (Or.inl rfl)
    · exact Or.inr (Or.inr (Or.inl rfl))
    · exact Or.inr (Or.inr (Or.inr rfl))

/-- Witness for C10 with a CRITICAL impact assessment. -/
theorem C10_recovery_selector_witness :
    c10_assess c10_plan c10_step = "CRITICAL"
    ∧ (determine_recovery_strategy c10_assess c10_find c10_plan c10_step "boom").type = "ABORT"
    ∧ (determine_recovery_strategy c10_assess c10_find c10_plan c10_step "boom").action
        = "Request human intervention"
    ∧ ((determine_recovery_strategy c10_assess c10_find c10_plan c10_step "boom").type = "ABORT"
      ∨ (determine_recovery_strategy c10_assess c10_find c10_plan c10_step "boom").type
          = "ALTERNATIVE"
      ∨ (determine_recovery_strategy c10_assess c10_find c10_plan c10_step "boom").type
          = "SKIP_AND_CONTINUE"
      ∨ (determine_recovery_strategy c10_assess c10_find c10_plan c10_step "boom").type
          = "CONTINUE") := by
  have h : c10_assess c10_plan c10_step = "CRITICAL" := rfl
  obtain ⟨h1, -, -, -, h5⟩ :=
    C10_recovery_selector c10_assess c10_find c10_plan c10_step "boom"
  obtain ⟨h2, h3⟩ := h1 h
  exact ⟨h, h2, h3, h5⟩
